import Mathlib

/-!
Shallow embedding of the note-management HTTP handlers in
`src/app/api/[[...route]]/note.ts` (Hono router over a Prisma note store),
together with proofs of the specification's claims about them.

The four handlers (POST /create, PATCH /update/:id, GET /all, GET /:id) are
embedded as pure Lean functions over an explicit store (a list of notes).
Each handler is split into an `Inner` function (the body of the `try` block,
returning `Except HError _`) and an outer function reproducing the handler's
`catch` clause, because the catch clauses differ: the update and get-one
handlers rethrow `HTTPException` unchanged, while the create and list
handlers re-wrap every error as a 500.
-/

/-- A stored note.  Timestamps are modelled as naturals. -/
structure Note where
  id : String
  title : String
  content : String
  userId : String
  createdAt : Nat
  updatedAt : Nat
deriving Repr, DecidableEq

/-- The record store: the collection of persisted notes. -/
abbrev Store := List Note

/-- A request body for create/update, after JSON parsing: `title` and
`content` are each either absent or a string (the handlers only ever treat
them as strings; `typeof body.title !== 'string'` is folded into absence). -/
structure NoteInput where
  title : Option String := none
  content : Option String := none
deriving Repr, DecidableEq

deriving instance DecidableEq for Except

/-- Errors that can be thrown inside a handler's `try` block:
`httpEx s m` is `new HTTPException(s, {message: m})`; `jsError m` is any
other JavaScript `Error` with message `m` (e.g. a JSON `SyntaxError` from
`c.req.json()` or a store failure). -/
inductive HError where
  | httpEx (status : Nat) (message : String)
  | jsError (message : String)
deriving Repr, DecidableEq

/-- `error.message` of a thrown error (both variants are `Error`s, so the
`error instanceof Error ? error.message : ...` fallback never fires). -/
def HError.message : HError → String
  | .httpEx _ m => m
  | .jsError m => m

/-- The pagination envelope returned by GET /all. -/
structure Pagination where
  total : Nat
  page : Int
  limit : Int
  totalPages : Int
  hasNextPage : Bool
  hasPreviousPage : Bool
deriving Repr, DecidableEq

/-- Response body of a handler, as shaped by `c.json`. -/
inductive Resp where
  | data (note : Note)
  | ok (note : Note)
  | okList (notes : List Note) (pg : Pagination)
  | err (message : String)
deriving Repr, DecidableEq

/-! ## The identifier validator

Embedding of the regex
`/^[0-9a-f]{8}-?[0-9a-f]{4}-?4[0-9a-f]{3}-?[89ab][0-9a-f]{3}-?[0-9a-f]{12}$/i`
used by PATCH /update/:id and GET /:id.  Each `-?` is consumed greedily;
this agrees with the regex because a hyphen can never satisfy the hex-digit
class that follows it, so backtracking over `-?` never succeeds. -/

/-- Case-insensitive hex digit, the `[0-9a-f]` class under the `i` flag. -/
def isHexDigitCI (c : Char) : Bool :=
  ('0' ≤ c && c ≤ '9') || ('a' ≤ c && c ≤ 'f') || ('A' ≤ c && c ≤ 'F')

/-- The `[89ab]` variant class under the `i` flag. -/
def isVariantChar (c : Char) : Bool :=
  c == '8' || c == '9' || c == 'a' || c == 'b' || c == 'A' || c == 'B'

/-- Consume exactly `n` hex digits, returning the rest of the input. -/
def chompHex : Nat → List Char → Option (List Char)
  | 0, cs => some cs
  | _ + 1, [] => none
  | n + 1, c :: cs => if isHexDigitCI c then chompHex n cs else none

/-- Consume an optional hyphen (the regex's `-?`). -/
def optDash : List Char → List Char
  | '-' :: cs => cs
  | cs => cs

/-- `id.match(uuid-v4-regex) !== null`: 8 hex, optional `-`, 4 hex, optional
`-`, `4` + 3 hex, optional `-`, variant + 3 hex, optional `-`, 12 hex,
end of string. -/
def uuidV4Match (s : String) : Bool :=
  (do
    let cs ← chompHex 8 s.toList
    let cs ← chompHex 4 (optDash cs)
    let cs ← (match optDash cs with
              | '4' :: rest => chompHex 3 rest
              | _ => none)
    let cs ← (match optDash cs with
              | c :: rest => if isVariantChar c then chompHex 3 rest else none
              | [] => none)
    let cs ← chompHex 12 (optDash cs)
    if cs = [] then some () else none).isSome

/-- The guard `!id || !id.match(...)` of the update and get-one handlers:
an empty `id` is falsy, any other `id` is tested against the regex. -/
def invalidNoteId (id : String) : Bool :=
  id == "" || !uuidV4Match id

/-! ## The pagination parser (GET /all, lines 124-131) -/

/-- JavaScript `String.prototype.trim()`: strip leading and trailing
whitespace. -/
def jsTrim (s : String) : String :=
  String.mk
    (((s.toList.dropWhile Char.isWhitespace).reverse.dropWhile
        Char.isWhitespace).reverse)

/-- Longest leading run of decimal digits, as a number; `none` if empty. -/
def leadingDigits (cs : List Char) : Option Nat :=
  match cs.takeWhile Char.isDigit with
  | [] => none
  | ds => some (ds.foldl (fun acc c => acc * 10 + (c.toNat - '0'.toNat)) 0)

/-- `parseInt(s, 10)`: skip leading whitespace, optional sign, then the
longest run of decimal digits (trailing garbage ignored); `none` models
`NaN`. -/
def jsParseInt (s : String) : Option Int :=
  match s.toList.dropWhile Char.isWhitespace with
  | '+' :: rest => (leadingDigits rest).map Int.ofNat
  | '-' :: rest => (leadingDigits rest).map fun n => -(Int.ofNat n)
  | cs => (leadingDigits cs).map Int.ofNat

/-- `query.page ? Math.max(1, parseInt(query.page, 10)) : 1`.  An absent or
empty (falsy) raw value takes the default; `Math.max(1, NaN)` is `NaN`,
modelled by `Option.map`. -/
def parsePage (q : Option String) : Option Int :=
  match q with
  | none => some 1
  | some s => if s == "" then some 1 else (jsParseInt s).map fun v => max 1 v

/-- `query.limit ? Math.min(100, Math.max(1, parseInt(query.limit, 10))) : 20`. -/
def parseLimit (q : Option String) : Option Int :=
  match q with
  | none => some 20
  | some s =>
    if s == "" then some 20 else (jsParseInt s).map fun v => min 100 (max 1 v)

/-- Lines 124-131: parse both values, then
`if (isNaN(page) || isNaN(limit) || page < 1 || limit < 1 || limit > 100)`
throw `HTTPException(400, "Invalid pagination parameters")`. -/
def parsePagination (pageQ limitQ : Option String) :
    Except HError (Int × Int) :=
  match parsePage pageQ, parseLimit limitQ with
  | some page, some limit =>
    if page < 1 ∨ limit < 1 ∨ limit > 100 then
      .error (.httpEx 400 "Invalid pagination parameters")
    else .ok (page, limit)
  | _, _ => .error (.httpEx 400 "Invalid pagination parameters")

/-! ## The record store

The Prisma client and schema are external to `src/`; the spec treats the
store as "a record store with find/create/update/count operations", so the
store operations below are modelled from the spec. -/

/-- `prisma.note.findFirst({where: {id, userId}})`: first note matching both. -/
def findFirstByIdAndUser (store : Store) (id userId : String) : Option Note :=
  store.find? fun n => n.id == id && n.userId == userId

/-- Modelled from the spec: the store's `create` operation
(`prisma.note.create`).  The schema is not under `src/`; per §3 of the spec
the identifier and both timestamps are server-assigned (`createdAt`
immutable, `updatedAt` set on every mutation), so the fresh id and clock
are explicit parameters and `createdAt = updatedAt = now`. -/
def prismaNoteCreate (store : Store) (title content userId : String)
    (newId : String) (now : Nat) : Note × Store :=
  let n : Note := { id := newId, title := title, content := content,
                    userId := userId, createdAt := now, updatedAt := now }
  (n, store ++ [n])

/-- Modelled from the spec: the store's `update` operation
(`prisma.note.update({where: {id}, data: {title, content}})`).  Per §9 of
the spec, fields that are `undefined` in `data` are skipped (merge by
presence), and per §3 `updatedAt` is refreshed on every successful
mutation while `createdAt` is immutable.  `none` is returned when no
record matches (Prisma's record-not-found error). -/
def prismaNoteUpdate (store : Store) (id : String)
    (title content : Option String) (now : Nat) : Option (Note × Store) :=
  match store.find? (fun n => n.id == id) with
  | none => none
  | some n =>
    some ({ n with title := title.getD n.title,
                   content := content.getD n.content, updatedAt := now },
          store.map fun m =>
            if m.id == id then
              { m with title := title.getD m.title,
                       content := content.getD m.content, updatedAt := now }
            else m)

/-- Insert a note into a list that is sorted by `updatedAt` descending. -/
def insertByUpdatedAtDesc (n : Note) : List Note → List Note
  | [] => [n]
  | m :: ms =>
    if m.updatedAt ≤ n.updatedAt then n :: m :: ms
    else m :: insertByUpdatedAtDesc n ms

/-- `orderBy: {updatedAt: "desc"}`: sort by `updatedAt` descending. -/
def sortByUpdatedAtDesc : List Note → List Note
  | [] => []
  | n :: ns => insertByUpdatedAtDesc n (sortByUpdatedAtDesc ns)

/-- `prisma.note.findMany({where: {userId}, orderBy: {updatedAt: "desc"},
skip, take})`. -/
def findManyByUser (store : Store) (userId : String) (skip take : Nat) :
    List Note :=
  (((sortByUpdatedAtDesc (store.filter fun n => n.userId == userId)).drop
      skip).take take)

/-- `prisma.note.count({where: {userId}})`. -/
def countByUser (store : Store) (userId : String) : Nat :=
  (store.filter fun n => n.userId == userId).length

/-- `Math.ceil(total / limit)`: real division followed by ceiling. -/
def mathCeilDiv (total : Nat) (limit : Int) : Int :=
  ⌈(total : ℚ) / (limit : ℚ)⌉

/-! ## The four handlers -/

/-- The `try` block of POST /create (lines 25-55): parse the body, validate
the title (`!body.title || typeof body.title !== 'string' ||
body.title.trim().length === 0` → 400 "Title is required";
`body.title.length > 255` → 400 "Title is too long"), then persist with
`content = body.content || ''` and `userId = user.id`. -/
def createNoteInner (user : String) (body : Except String NoteInput)
    (store : Store) (newId : String) (now : Nat) :
    Except HError (Note × Store) :=
  match body with
  | .error m => .error (.jsError m)
  | .ok b =>
    match b.title with
    | none => .error (.httpEx 400 "Title is required")
    | some t =>
      if t == "" || (jsTrim t).length == 0 then
        .error (.httpEx 400 "Title is required")
      else if t.length > 255 then
        .error (.httpEx 400 "Title is too long")
      else
        .ok (prismaNoteCreate store t (b.content.getD "") user newId now)

/-- POST /create with its `catch` (lines 56-61): every thrown error —
including the handler's own `HTTPException(400, ...)`, which is *not*
rethrown — is re-wrapped as `HTTPException(500, {message: error.message})`.
Returns (status, body, store). -/
def createNote (user : String) (body : Except String NoteInput)
    (store : Store) (newId : String) (now : Nat) : Nat × Resp × Store :=
  match createNoteInner user body store newId now with
  | .ok (n, s) => (201, .data n, s)
  | .error e => (500, .err e.message, store)

/-- The `try` block of PATCH /update/:id (lines 67-107): parse the body
(line 70, before id validation), validate the id shape (400), look the note
up by id AND userId (404 when absent), then update by id with the provided
fields.  No title validation is performed. -/
def updateNoteInner (user id : String) (body : Except String NoteInput)
    (store : Store) (now : Nat) : Except HError (Note × Store) :=
  match body with
  | .error m => .error (.jsError m)
  | .ok b =>
    if invalidNoteId id then
      .error (.httpEx 400 "Invalid note ID format")
    else
      match findFirstByIdAndUser store id user with
      | none => .error (.httpEx 404 "Note not found")
      | some _ =>
        match prismaNoteUpdate store id b.title b.content now with
        | none => .error (.jsError "Record to update not found.")
        | some (n, s) => .ok (n, s)

/-- PATCH /update/:id with its `catch` (lines 108-114): an `HTTPException`
is rethrown unchanged; any other error becomes a 500 with its message. -/
def updateNote (user id : String) (body : Except String NoteInput)
    (store : Store) (now : Nat) : Nat × Resp × Store :=
  match updateNoteInner user id body store now with
  | .ok (n, s) => (200, .ok n, s)
  | .error (.httpEx st m) => (st, .err m, store)
  | .error e => (500, .err e.message, store)

/-- The `try` block of GET /all (lines 119-164): parse pagination, then
fetch the caller's page of notes and the total count, and shape the
envelope with `skip = (page - 1) * limit`,
`totalPages = Math.ceil(total / limit)`, `hasNextPage = page < totalPages`,
`hasPreviousPage = page > 1`. -/
def getAllNotesInner (user : String) (pageQ limitQ : Option String)
    (store : Store) : Except HError (List Note × Pagination) :=
  match parsePagination pageQ limitQ with
  | .error e => .error e
  | .ok (page, limit) =>
    let skip := (page - 1) * limit
    let notes := findManyByUser store user skip.toNat limit.toNat
    let total := countByUser store user
    let totalPages := mathCeilDiv total limit
    .ok (notes,
      { total := total, page := page, limit := limit,
        totalPages := totalPages,
        hasNextPage := decide (page < totalPages),
        hasPreviousPage := decide (page > 1) })

/-- GET /all with its `catch` (lines 165-170): like create, the catch does
*not* rethrow `HTTPException`, so every error — including the 400 pagination
error — is re-wrapped as a 500 with the same message. -/
def getAllNotes (user : String) (pageQ limitQ : Option String)
    (store : Store) : Nat × Resp :=
  match getAllNotesInner user pageQ limitQ store with
  | .ok (ns, pg) => (200, .okList ns pg)
  | .error e => (500, .err e.message)

/-- The `try` block of GET /:id (lines 174-205): validate the id shape
(400), look the note up by id AND userId, 404 when absent, 200 otherwise. -/
def getNoteInner (user id : String) (store : Store) : Except HError Note :=
  if invalidNoteId id then
    .error (.httpEx 400 "Invalid note ID format")
  else
    match findFirstByIdAndUser store id user with
    | none => .error (.httpEx 404 "Note not found")
    | some n => .ok n

/-- GET /:id with its `catch` (lines 206-212): an `HTTPException` is
rethrown unchanged; any other error becomes a 500 with its message. -/
def getNote (user id : String) (store : Store) : Nat × Resp :=
  match getNoteInner user id store with
  | .ok n => (200, .ok n)
  | .error (.httpEx st m) => (st, .err m)
  | .error e => (500, .err e.message)



/-! ## Concrete fixtures used by witnesses and counterexamples -/

/-- A canonically hyphenated UUID-v4 identifier. -/
def validId : String := "123e4567-e89b-42d3-a456-426614174000"

/-- A title of raw length 256 (over the 255-character cap). -/
def longTitle : String := String.mk (List.replicate 256 'a')

/-- A note with id `validId` owned by user `"A"`. -/
def noteA : Note :=
  { id := validId, title := "old title", content := "old content",
    userId := "A", createdAt := 0, updatedAt := 0 }

/-- A store holding only `noteA`. -/
def store0 : Store := [noteA]

/-- The note produced by a create run with user "u", fresh id "i",
title "t", absent content, at time 0. -/
def noteC : Note :=
  { id := "i", title := "t", content := "", userId := "u",
    createdAt := 0, updatedAt := 0 }

/-- A store with three notes owned by `"u"`, distinct `updatedAt`. -/
def store3 : Store :=
  [{ id := "a", title := "t1", content := "", userId := "u",
     createdAt := 0, updatedAt := 3 },
   { id := "b", title := "t2", content := "", userId := "u",
     createdAt := 0, updatedAt := 2 },
   { id := "c", title := "t3", content := "", userId := "u",
     createdAt := 0, updatedAt := 1 }]

/-! ## Helper lemmas -/

/-- For a positive limit, `Math.ceil(total / limit)` agrees with natural
ceiling division `(total + limit - 1) / limit`. -/
theorem mathCeilDiv_natCast (t l : Nat) (hl : 0 < l) :
    mathCeilDiv t (l : Int) = (((t + l - 1) / l : Nat) : Int) := by
  have hd := Nat.div_add_mod (t + l - 1) l
  have hm : (t + l - 1) % l < l := Nat.mod_lt _ hl
  set k := (t + l - 1) / l with hk
  have h1 : t ≤ l * k := by omega
  have h2 : l * k < t + l := by omega
  have hl' : (0 : ℚ) < (((l : Nat) : Int) : ℚ) := by exact_mod_cast hl
  have h1' : (t : ℚ) ≤ l * k := by exact_mod_cast h1
  have h2' : (l : ℚ) * k < t + l := by exact_mod_cast h2
  unfold mathCeilDiv
  rw [Int.ceil_eq_iff]
  constructor
  · rw [lt_div_iff hl']
    push_cast
    nlinarith
  · rw [div_le_iff hl']
    push_cast
    nlinarith

/-- `Math.ceil(total / limit)` is the least integer `k` with
`total ≤ k * limit`: the ceiling characterization used to check the
pagination envelope. -/
theorem mathCeilDiv_char (t : Nat) (l : Int) (hl : 0 < l) :
    (t : Int) ≤ mathCeilDiv t l * l ∧ (mathCeilDiv t l - 1) * l < t := by
  have hl' : (0 : ℚ) < (l : ℚ) := by exact_mod_cast hl
  have hle := Int.le_ceil ((t : ℚ) / (l : ℚ))
  have hlt := Int.ceil_lt_add_one ((t : ℚ) / (l : ℚ))
  unfold mathCeilDiv
  constructor
  · rw [div_le_iff hl'] at hle
    exact_mod_cast hle
  · have h2 : ((⌈(t : ℚ) / (l : ℚ)⌉ : ℚ) - 1) * l < t := by
      have hml : ((⌈(t : ℚ) / (l : ℚ)⌉ : ℚ)) * l < ((t : ℚ) / l + 1) * l := by
        nlinarith
      have heq : ((t : ℚ) / l + 1) * l = t + l := by field_simp
      nlinarith
    exact_mod_cast h2


/-- A successfully parsed pagination pair is clamped: `1 ≤ page` and
`1 ≤ limit ≤ 100`. -/
theorem parsePagination_ok_bounds (pq lq : Option String) (p l : Int)
    (h : parsePagination pq lq = .ok (p, l)) : 1 ≤ p ∧ 1 ≤ l ∧ l ≤ 100 := by
  unfold parsePagination at h
  cases hp : parsePage pq with
  | none => rw [hp] at h; simp at h
  | some pv =>
    cases hl : parseLimit lq with
    | none => rw [hp, hl] at h; simp at h
    | some lv =>
      rw [hp, hl] at h
      by_cases hc : pv < 1 ∨ lv < 1 ∨ lv > 100
      · simp [hc] at h
      · simp only [if_neg hc, Except.ok.injEq, Prod.mk.injEq] at h
        push_neg at hc
        obtain ⟨h1, h2⟩ := h
        omega

/-- If the first note with a given id belongs to `user`, the combined
id-and-owner lookup finds that same note. -/
theorem find?_id_and_user (store : Store) (id user : String) (n : Note)
    (h : store.find? (fun m => m.id == id) = some n) (hu : n.userId = user) :
    store.find? (fun m => m.id == id && m.userId == user) = some n := by
  induction store with
  | nil => simp at h
  | cons a l ih =>
    by_cases ha : (a.id == id) = true
    · rw [List.find?_cons_of_pos (p := fun m => m.id == id) l ha] at h
      injection h with h
      subst h
      exact List.find?_cons_of_pos (p := fun m => m.id == id && m.userId == user)
        (a := a) l (by simp_all)
    · rw [List.find?_cons_of_neg (p := fun m => m.id == id) l ha] at h
      rw [List.find?_cons_of_neg (p := fun m => m.id == id && m.userId == user)
        l (fun hc => ha (by rw [Bool.and_eq_true] at hc; exact hc.1))]
      exact ih h

/-- A string accepted by the UUID regex passes the `!id || !id.match(...)`
guard. -/
theorem invalidNoteId_eq_false (id : String) (h : uuidV4Match id = true) :
    invalidNoteId id = false := by
  unfold invalidNoteId
  have hne : (id == "") = false := by
    by_cases he : id = ""
    · subst he; exact absurd h (by decide)
    · simp [he]
  simp [hne, h]

/-! ## Claims -/

/-- C10: for every create or update request whose body cannot be parsed as
JSON, the parse failure is caught by the handler's generic catch and mapped
to a 500 response (with the parse error's message), not 400. -/
theorem unparseable_body_responds_500 (user m : String) (store : Store)
    (newId : String) (now : Nat) (id : String) :
    createNote user (.error m) store newId now = (500, .err m, store) ∧
    updateNote user id (.error m) store now = (500, .err m, store) :=
  ⟨rfl, rfl⟩

/-- C1: evaluation at the failing inputs.  A 400 already classified inside
the create handler ("Title is required") and inside the list handler
("Invalid pagination parameters") is re-wrapped by those handlers' generic
catch into a 500 response, contradicting the claim; update and get-one do
pass their classified 400 through unchanged. -/
theorem create_and_list_rewrap_classified_errors :
    createNote "u" (.ok { title := some "", content := none }) [] "id1" 0 =
      (500, .err "Title is required", []) ∧
    getAllNotes "u" (some "x") none [] =
      (500, .err "Invalid pagination parameters") ∧
    updateNote "u" "zzz" (.ok {}) [] 0 =
      (400, .err "Invalid note ID format", []) ∧
    getNote "u" "zzz" [] = (400, .err "Invalid note ID format") := by
  decide

/-- C4: an identifier rejected by the UUID-v4 shape test makes update and
get-one respond 400 "Invalid note ID format" with the store left untouched,
whatever the store contains (the store is never consulted). -/
theorem invalid_id_responds_400 (id : String) (h : uuidV4Match id = false)
    (user : String) (store : Store) (now : Nat) (b : NoteInput) :
    updateNote user id (.ok b) store now =
      (400, .err "Invalid note ID format", store) ∧
    getNote user id store = (400, .err "Invalid note ID format") := by
  have hinv : invalidNoteId id = true := by simp [invalidNoteId, h]
  constructor
  · simp [updateNote, updateNoteInner, hinv]
  · simp [getNote, getNoteInner, hinv]

/-- Witness for C4 at the concrete identifier "not-a-uuid". -/
theorem invalid_id_responds_400_witness :
    updateNote "u" "not-a-uuid" (.ok {}) [] 0 =
      (400, .err "Invalid note ID format", []) ∧
    getNote "u" "not-a-uuid" [] = (400, .err "Invalid note ID format") :=
  invalid_id_responds_400 "not-a-uuid" (by decide) "u" [] 0 {}

/-- C9: the UUID regex makes each of the four hyphens independently
optional, so a mixed form with only one of the four canonical hyphens is
accepted by the validator (and get-one proceeds past validation to the
store lookup), exactly like the fully hyphenated and hyphen-free forms. -/
theorem mixed_hyphenation_accepted :
    uuidV4Match "00000000-000040008000000000000000" = true ∧
    ("00000000-000040008000000000000000".toList.count '-') = 1 ∧
    uuidV4Match "00000000-0000-4000-8000-000000000000" = true ∧
    uuidV4Match "00000000000040008000000000000000" = true ∧
    getNote "u" "00000000-000040008000000000000000" [] =
      (404, .err "Note not found") := by
  decide

/-- C3: a note owned by user `A` is invisible to user `B`: update and
get-one with a valid identifier all of whose store matches are owned by `A`
respond 404 "Note not found" — the same constant response produced when the
note does not exist at all. -/
theorem foreign_note_responds_404 (A B id : String) (store : Store)
    (hAB : A ≠ B) (hid : uuidV4Match id = true)
    (howner : ∀ n ∈ store, n.id = id → n.userId = A)
    (b : NoteInput) (now : Nat) :
    updateNote B id (.ok b) store now = (404, .err "Note not found", store) ∧
    getNote B id store = (404, .err "Note not found") := by
  have hinv := invalidNoteId_eq_false id hid
  have hfind : findFirstByIdAndUser store id B = none := by
    unfold findFirstByIdAndUser
    rw [List.find?_eq_none]
    intro n hn hcon
    rw [Bool.and_eq_true] at hcon
    obtain ⟨h1, h2⟩ := hcon
    exact hAB ((howner n hn (beq_iff_eq.mp h1)).symm.trans (beq_iff_eq.mp h2))
  constructor
  · simp [updateNote, updateNoteInner, hinv, hfind]
  · simp [getNote, getNoteInner, hinv, hfind]

/-- Witness for C3: the note in `store0` is owned by "A"; caller "B" gets
404 from both operations despite using the correct identifier. -/
theorem foreign_note_responds_404_witness :
    updateNote "B" validId (.ok {}) store0 7 =
      (404, .err "Note not found", store0) ∧
    getNote "B" validId store0 = (404, .err "Note not found") :=
  foreign_note_responds_404 "A" "B" validId store0 (by decide) (by decide)
    (by decide) {} 7

/-- C2 counterexample: an update request whose title has trimmed length 0
succeeds with 200 (update performs no title validation), and a create
request with such a title responds 500, not 400 (the generic catch
re-wraps the classified error). -/
theorem title_validation_counterexample :
    (updateNote "A" validId (.ok { title := some "", content := none })
      store0 5).1 = 200 ∧
    (createNote "u" (.ok { title := some "", content := none })
      [] "i" 0).1 = 500 := by
  decide

/-- C2 amended: only the create handler validates the title.  A trimmed-
empty title is classified 400 "Title is required" and a raw length over 255
is classified 400 "Title is too long" inside the try block, but create's
generic catch surfaces both as status 500 with the same message; the update
handler performs no title validation and succeeds whenever the id is valid
and the note is owned by the caller, whatever the title. -/
theorem title_validation_create_only :
    (∀ (u : String) (b : NoteInput) (s : Store) (i : String) (nw : Nat),
        (b.title = none ∨ ∃ t, b.title = some t ∧ (jsTrim t).length = 0) →
        createNote u (.ok b) s i nw = (500, .err "Title is required", s) ∧
        createNoteInner u (.ok b) s i nw =
          .error (.httpEx 400 "Title is required")) ∧
    (∀ (u t : String) (b : NoteInput) (s : Store) (i : String) (nw : Nat),
        b.title = some t → (jsTrim t).length ≠ 0 → t.length > 255 →
        createNote u (.ok b) s i nw = (500, .err "Title is too long", s) ∧
        createNoteInner u (.ok b) s i nw =
          .error (.httpEx 400 "Title is too long")) ∧
    (∀ (u id : String) (b : NoteInput) (s : Store) (nw : Nat) (n : Note),
        invalidNoteId id = false →
        findFirstByIdAndUser s id u = some n →
        (updateNote u id (.ok b) s nw).1 = 200) := by
  refine ⟨?_, ?_, ?_⟩
  · intro u b s i nw h
    rcases h with h | ⟨t, ht, htr⟩
    · constructor <;> simp [createNote, createNoteInner, HError.message, h]
    · constructor <;> simp [createNote, createNoteInner, HError.message, ht, htr]
  · intro u t b s i nw ht htr hlen
    have hne : (t == "") = false := by
      cases he : t == "" with
      | false => rfl
      | true =>
        exact absurd (by rw [beq_iff_eq.mp he]; decide : (jsTrim t).length = 0) htr
    constructor <;> simp [createNote, createNoteInner, HError.message, ht, hne, htr, hlen]
  · intro u id b s nw n hinv hfind
    have hmem := List.mem_of_find?_eq_some hfind
    have hpred := List.find?_some hfind
    rw [Bool.and_eq_true] at hpred
    have hsome : (s.find? (fun m => m.id == id)).isSome :=
      List.find?_isSome.mpr ⟨n, hmem, hpred.1⟩
    unfold updateNote updateNoteInner findFirstByIdAndUser prismaNoteUpdate
    unfold findFirstByIdAndUser at hfind
    cases hf2 : s.find? (fun m => m.id == id) with
    | none => rw [hf2] at hsome; simp at hsome
    | some m0 => simp [hinv, hfind, hf2]

set_option maxRecDepth 16384 in
/-- Witness for C2's amended statement: a blank title and an over-long
title are classified inside create and surfaced as 500; the update of
`noteA` with an empty title succeeds with 200. -/
theorem title_validation_create_only_witness :
    createNote "u" (.ok { title := some " ", content := none }) [] "i" 0 =
      (500, .err "Title is required", []) ∧
    createNote "u" (.ok { title := some longTitle, content := none })
      [] "i" 0 = (500, .err "Title is too long", []) ∧
    (updateNote "A" validId (.ok { title := some "", content := none })
      store0 5).1 = 200 := by
  refine ⟨(title_validation_create_only.1 "u" _ [] "i" 0
      (Or.inr ⟨" ", rfl, by decide⟩)).1,
    (title_validation_create_only.2.1 "u" longTitle _ [] "i" 0 rfl
      (by decide) (by decide)).1,
    title_validation_create_only.2.2 "A" validId _ store0 5 noteA
      (by decide) (by decide)⟩

/-- C5 counterexample: an empty-string `page`/`limit` value is present but
fails to parse as an integer (`parseInt("")` is `NaN`), yet the parser
falls back to the defaults instead of responding 400, because the empty
string is falsy. -/
theorem empty_pagination_value_defaults :
    jsParseInt "" = none ∧
    parsePagination (some "") (some "") = .ok (1, 20) := by
  decide

/-- C5 amended: absent `page`/`limit` default to 1 and 20; a numeric page
is clamped below by 1 and a numeric limit is clamped into [1, 100]; a
*nonempty* value that fails to parse as an integer yields the 400
InvalidPagination error (an empty-string value instead behaves as absent,
see the counterexample); and every successfully parsed pair satisfies
`1 ≤ page` and `1 ≤ limit ≤ 100`. -/
theorem pagination_parser_spec :
    parsePage none = some 1 ∧
    parseLimit none = some 20 ∧
    (∀ (s : String) (v : Int), jsParseInt s = some v →
        parsePage (some s) = some (max 1 v)) ∧
    (∀ (s : String) (v : Int), jsParseInt s = some v →
        parseLimit (some s) = some (min 100 (max 1 v))) ∧
    (∀ (s : String) (lq : Option String), s ≠ "" → jsParseInt s = none →
        parsePagination (some s) lq =
          .error (.httpEx 400 "Invalid pagination parameters")) ∧
    (∀ (s : String) (pq : Option String), s ≠ "" → jsParseInt s = none →
        parsePagination pq (some s) =
          .error (.httpEx 400 "Invalid pagination parameters")) ∧
    (∀ (pq lq : Option String) (p l : Int),
        parsePagination pq lq = .ok (p, l) → 1 ≤ p ∧ 1 ≤ l ∧ l ≤ 100) := by
  have hemp : ∀ (s : String) (v : Int), jsParseInt s = some v → (s == "") = false := by
    intro s v h
    cases he : s == "" with
    | false => rfl
    | true =>
      rw [beq_iff_eq.mp he] at h
      rw [show jsParseInt "" = none from rfl] at h
      exact Option.noConfusion h
  refine ⟨rfl, rfl, ?_, ?_, ?_, ?_, ?_⟩
  · intro s v h
    simp [parsePage, hemp s v h, h]
  · intro s v h
    simp [parseLimit, hemp s v h, h]
  · intro s lq hne h
    have hp : parsePage (some s) = none := by simp [parsePage, hne, h]
    unfold parsePagination
    rw [hp]
  · intro s pq hne h
    have hl : parseLimit (some s) = none := by simp [parseLimit, hne, h]
    unfold parsePagination
    rw [hl]
    cases parsePage pq <;> rfl
  · exact fun pq lq p l h => parsePagination_ok_bounds pq lq p l h

/-- Witness for C5's amended statement at concrete query values. -/
theorem pagination_parser_spec_witness :
    parsePage (some "0") = some (max 1 0) ∧
    parseLimit (some "500") = some (min 100 (max 1 500)) ∧
    parsePagination (some "x") none =
      .error (.httpEx 400 "Invalid pagination parameters") ∧
    parsePagination none (some "y") =
      .error (.httpEx 400 "Invalid pagination parameters") ∧
    (1 ≤ (1 : Int) ∧ 1 ≤ (20 : Int) ∧ (20 : Int) ≤ 100) :=
  ⟨pagination_parser_spec.2.2.1 "0" 0 (by decide),
   pagination_parser_spec.2.2.2.1 "500" 500 (by decide),
   pagination_parser_spec.2.2.2.2.1 "x" none (by decide) (by decide),
   pagination_parser_spec.2.2.2.2.2.1 "y" none (by decide) (by decide),
   pagination_parser_spec.2.2.2.2.2.2 none none 1 20 (by decide)⟩

/-- A successful store update never changes any note's `userId` (the update
`data` carries only `title` and `content`). -/
theorem prismaNoteUpdate_userId (store : Store) (id : String)
    (t c : Option String) (now : Nat) (n : Note) (s2 : Store)
    (h : prismaNoteUpdate store id t c now = some (n, s2)) :
    s2.map Note.userId = store.map Note.userId := by
  unfold prismaNoteUpdate at h
  cases hf : store.find? (fun m => m.id == id) with
  | none => rw [hf] at h; simp at h
  | some m0 =>
    rw [hf] at h
    simp only [Option.some.injEq, Prod.mk.injEq] at h
    rw [← h.2, List.map_map]
    apply List.map_congr_left
    intro a _
    by_cases hid2 : a.id = id <;> simp [hid2]

/-- C6: every successful list response satisfies the claimed envelope
arithmetic: `totalPages = Math.ceil(total / limit)` (equivalently, the
least integer `k` with `total ≤ k * limit`), `hasNextPage = page <
totalPages`, `hasPreviousPage = page > 1`, and the returned page of notes
is taken with offset `skip = (page - 1) * limit` and length `limit` from
the caller's notes, whose count is the store-reported `total`. -/
theorem pagination_envelope_spec (user : String) (pq lq : Option String)
    (s : Store) (notes : List Note) (pg : Pagination)
    (h : getAllNotes user pq lq s = (200, .okList notes pg)) :
    pg.totalPages = mathCeilDiv pg.total pg.limit ∧
    (pg.total : Int) ≤ pg.totalPages * pg.limit ∧
    (pg.totalPages - 1) * pg.limit < (pg.total : Int) ∧
    pg.hasNextPage = decide (pg.page < pg.totalPages) ∧
    pg.hasPreviousPage = decide (pg.page > 1) ∧
    notes =
      findManyByUser s user ((pg.page - 1) * pg.limit).toNat pg.limit.toNat ∧
    pg.total = countByUser s user := by
  unfold getAllNotes at h
  cases hin : getAllNotesInner user pq lq s with
  | error e => rw [hin] at h; simp at h
  | ok val =>
    obtain ⟨ns, p⟩ := val
    rw [hin] at h
    simp only [Prod.mk.injEq, Resp.okList.injEq] at h
    obtain ⟨-, hns, hp⟩ := h
    unfold getAllNotesInner at hin
    cases hpp : parsePagination pq lq with
    | error e => rw [hpp] at hin; simp at hin
    | ok pl =>
      obtain ⟨page, limit⟩ := pl
      rw [hpp] at hin
      simp only [Except.ok.injEq, Prod.mk.injEq] at hin
      obtain ⟨hns2, hp2⟩ := hin
      obtain ⟨hb1, hb2, hb3⟩ := parsePagination_ok_bounds pq lq page limit hpp
      obtain ⟨hc1, hc2⟩ :=
        mathCeilDiv_char (countByUser s user) limit (by omega)
      subst hns hp
      rw [← hns2, ← hp2]
      refine ⟨rfl, hc1, hc2, rfl, rfl, rfl, rfl⟩

/-- Witness for C6 on an empty store with default pagination. -/
theorem pagination_envelope_spec_witness :
    (⟨0, 1, 20, 0, false, false⟩ : Pagination).totalPages =
      mathCeilDiv 0 20 ∧
    ((0 : Nat) : Int) ≤ 0 * 20 ∧ ((0 : Int) - 1) * 20 < ((0 : Nat) : Int) ∧
    (false = decide ((1 : Int) < 0) ∧ false = decide ((1 : Int) > 1)) ∧
    ([] : List Note) = findManyByUser [] "u" 0 20 ∧
    (0 : Nat) = countByUser [] "u" := by
  have hc : mathCeilDiv 0 20 = 0 := by
    have := mathCeilDiv_natCast 0 20 (by norm_num)
    simpa using this
  have h0 : getAllNotes "u" none none [] =
      (200, .okList [] ⟨0, 1, 20, 0, false, false⟩) := by
    simp [getAllNotes, getAllNotesInner, parsePagination, parsePage,
      parseLimit, findManyByUser, countByUser, sortByUpdatedAtDesc, hc]
  obtain ⟨h1, h2, h3, h4, h5, h6, h7⟩ :=
    pagination_envelope_spec "u" none none [] []
      ⟨0, 1, 20, 0, false, false⟩ h0
  exact ⟨h1, h2, h3, ⟨h4, h5⟩, by simpa using h6, by simpa using h7⟩

/-- C7: a successful update whose body carries only `content` leaves the
note's `title` unchanged (Prisma skips `undefined` fields) and refreshes
`updatedAt` to the mutation time; every stored note keeps its title. -/
theorem partial_update_preserves_title (user id : String) (store : Store)
    (n : Note) (hfind : store.find? (fun m => m.id == id) = some n)
    (hu : n.userId = user) (hid : uuidV4Match id = true)
    (x : String) (now : Nat) :
    updateNote user id (.ok { title := none, content := some x })
        store now =
      (200, .ok { n with content := x, updatedAt := now },
        store.map fun m =>
          if m.id == id then { m with content := x, updatedAt := now }
          else m) ∧
    ({ n with content := x, updatedAt := now } : Note).title = n.title ∧
    ({ n with content := x, updatedAt := now } : Note).updatedAt = now := by
  have hinv := invalidNoteId_eq_false id hid
  have hcomb := find?_id_and_user store id user n hfind hu
  refine ⟨?_, rfl, rfl⟩
  unfold updateNote updateNoteInner findFirstByIdAndUser prismaNoteUpdate
  simp [hinv, hcomb, hfind]

/-- Witness for C7: updating `noteA` with only a content field keeps its
title and stamps `updatedAt` with the mutation time. -/
theorem partial_update_preserves_title_witness :
    updateNote "A" validId (.ok { title := none, content := some "new" })
        store0 9 =
      (200, .ok { noteA with content := "new", updatedAt := 9 },
        store0.map fun m =>
          if m.id == validId then { m with content := "new", updatedAt := 9 }
          else m) ∧
    ({ noteA with content := "new", updatedAt := 9 } : Note).title =
      noteA.title ∧
    ({ noteA with content := "new", updatedAt := 9 } : Note).updatedAt = 9 :=
  partial_update_preserves_title "A" validId store0 noteA (by decide)
    (by decide) (by decide) "new" 9

/-- C8: ownership is assigned exactly once.  Whatever the request, the
create handler either leaves the store unchanged or appends a single note
whose `userId` is the authenticated caller, and the update handler never
changes any stored note's `userId`. -/
theorem owner_assigned_at_creation_never_mutated (u : String)
    (body : Except String NoteInput) (s : Store) (i : String) (nw : Nat)
    (id : String) :
    (∀ st r s2, createNote u body s i nw = (st, r, s2) →
       s2 = s ∨ ∃ note, s2 = s ++ [note] ∧ note.userId = u) ∧
    (∀ st r s2, updateNote u id body s nw = (st, r, s2) →
       s2.map Note.userId = s.map Note.userId) := by
  constructor
  · intro st r s2 h
    unfold createNote createNoteInner at h
    rcases body with m | b
    · simp only [Prod.mk.injEq] at h
      exact Or.inl h.2.2.symm
    · rcases hb : b.title with _ | t
      · simp only [hb, Prod.mk.injEq] at h
        exact Or.inl h.2.2.symm
      · by_cases h1 : (t == "" || (jsTrim t).length == 0) = true
        · simp only [hb, h1, if_true, Prod.mk.injEq] at h
          exact Or.inl h.2.2.symm
        · by_cases h2 : t.length > 255
          · simp only [hb, h1, h2, Bool.false_eq_true, if_false, if_true,
              Prod.mk.injEq] at h
            exact Or.inl h.2.2.symm
          · simp only [hb, h1, h2, Bool.false_eq_true, if_false,
              prismaNoteCreate, Prod.mk.injEq] at h
            exact Or.inr ⟨_, h.2.2.symm, rfl⟩
  · intro st r s2 h
    unfold updateNote at h
    cases hin : updateNoteInner u id body s nw with
    | error e =>
      rw [hin] at h
      rcases e with ⟨st2, m⟩ | m <;>
        simp only [Prod.mk.injEq] at h <;> rw [← h.2.2]
    | ok val =>
      obtain ⟨nn, s3⟩ := val
      rw [hin] at h
      simp only [Prod.mk.injEq] at h
      rw [← h.2.2]
      unfold updateNoteInner at hin
      rcases body with m | b
      · simp at hin
      · simp only [] at hin
        by_cases hi : invalidNoteId id = true
        · rw [if_pos hi] at hin; simp at hin
        · rw [if_neg hi] at hin
          cases hff : findFirstByIdAndUser s id u with
          | none => rw [hff] at hin; simp at hin
          | some n0 =>
            rw [hff] at hin
            cases hpu : prismaNoteUpdate s id b.title b.content nw with
            | none => rw [hpu] at hin; simp at hin
            | some val2 =>
              obtain ⟨n3, s4⟩ := val2
              rw [hpu] at hin
              simp only [Except.ok.injEq, Prod.mk.injEq] at hin
              rw [← hin.2]
              exact prismaNoteUpdate_userId s id b.title b.content nw n3 s4 hpu

/-- Witness for C8 at concrete create and update runs. -/
theorem owner_assigned_at_creation_never_mutated_witness :
    (([noteC] : Store) = [] ∨
      ∃ note, ([noteC] : Store) = [] ++ [note] ∧ note.userId = "u") ∧
    (updateNote "A" validId (.ok { title := some "x", content := none })
        store0 9).2.2.map Note.userId = store0.map Note.userId := by
  constructor
  · exact (owner_assigned_at_creation_never_mutated "u"
      (.ok { title := some "t", content := none }) [] "i" 0 "z").1
      201 (.data noteC) [noteC] (by decide)
  · exact (owner_assigned_at_creation_never_mutated "A"
      (.ok { title := some "x", content := none }) store0 "i" 9 validId).2
      (updateNote "A" validId (.ok { title := some "x", content := none })
        store0 9).1
      (updateNote "A" validId (.ok { title := some "x", content := none })
        store0 9).2.1
      (updateNote "A" validId (.ok { title := some "x", content := none })
        store0 9).2.2 rfl
